import Mathlib

/-!
Verification of the firewall manager (`SoftLayer/managers/firewall.py`)
against its natural-language specification.

The Python code is shallowly embedded: each manager method becomes a pure
Lean function over explicit inputs standing for the data the remote calls
return.  Python dictionaries become structures, a possibly-missing key
becomes an `Option` field, a Python exception becomes `Option`/`Except`
failure, and the payload handed to a remote mutating call (placeOrder,
cancelService, createObject, getObject, getSummaryData) becomes the
function's result, so "the call is not reached" is exactly "the result is
`none`/`error`".
-/

namespace Firewall

/-! ### Data model -/

/-- A network component as returned under
`networkComponentGroup.networkComponents`: only `maxSpeed` is read. -/
structure NetworkComponent where
  maxSpeed : Nat
deriving Repr, DecidableEq

/-- A frontend network component of a hardware server, fetched with mask
`id,maxSpeed,networkComponentGroup.networkComponents`.  The
`networkComponentGroup` key may be absent; when present the code reads only
its `networkComponents` list, which is inlined here. -/
structure FrontendComponent where
  maxSpeed : Nat
  networkComponentGroup : Option (List NetworkComponent)
deriving Repr, DecidableEq

/-- Python's `max` over a list of naturals: undefined (ValueError) on the
empty list, hence `Option`. -/
def pyMaxList : List Nat → Option Nat
  | [] => none
  | x :: xs => some (xs.foldl Nat.max x)

/-- Embedding of `FirewallManager._get_fwl_port_speed`, physical branch (`is_virt` false),
as a function of the fetched frontend network components.  `none` models the
`ValueError` that `max(group_speeds)` raises on an empty list. -/
def getFwlPortSpeedPhysical (network_components : List FrontendComponent) : Option Nat :=
  let grouped := network_components.filterMap (fun interface => interface.networkComponentGroup)
  let ungrouped := network_components.filter
    (fun interface => interface.networkComponentGroup.isNone)
  let group_speeds := grouped.map
    (fun group => group.foldl (fun group_speed interface => group_speed + interface.maxSpeed) 0)
  match pyMaxList group_speeds with
  | none => none
  | some max_grouped_speed =>
    let max_ungrouped := ungrouped.foldl
      (fun max_u interface => Nat.max max_u interface.maxSpeed) 0
    some (Nat.max max_grouped_speed max_ungrouped)

/-- Spec-side value `M`: the maximum over all network-component groups of the
sum of the `maxSpeed` values of the group's members (0 when there are no
groups). -/
def maxGroupedSum (network_components : List FrontendComponent) : Nat :=
  ((network_components.filterMap (fun interface => interface.networkComponentGroup)).map
    (fun group => (group.map (fun c => c.maxSpeed)).sum)).foldl Nat.max 0

/-- Spec-side value `U`: the maximum `maxSpeed` among ungrouped frontend
components (0 when there are none). -/
def maxUngroupedSpeed (network_components : List FrontendComponent) : Nat :=
  ((network_components.filter (fun interface => interface.networkComponentGroup.isNone)).map
    (fun c => c.maxSpeed)).foldl Nat.max 0

/-! ### Lemmas about the port-speed computation -/

theorem foldl_add_maxSpeed (l : List NetworkComponent) (acc : Nat) :
    l.foldl (fun group_speed c => group_speed + c.maxSpeed) acc
      = acc + (l.map (fun c => c.maxSpeed)).sum := by
  induction l generalizing acc with
  | nil => simp
  | cons x xs ih => simp [ih, Nat.add_assoc]

theorem pyMaxList_of_ne_nil (l : List Nat) (h : l ≠ []) :
    pyMaxList l = some (l.foldl Nat.max 0) := by
  cases l with
  | nil => exact absurd rfl h
  | cons x xs =>
    have hx : Nat.max 0 x = x := Nat.max_eq_right (Nat.zero_le x)
    simp only [pyMaxList, List.foldl_cons, hx]

/-- C1: for a physical server whose frontend components contain at least one
network-component group, `_get_fwl_port_speed` returns `max(M, U)` with `M`
the maximum group sum and `U` the maximum ungrouped `maxSpeed` (0 when there
are no ungrouped components). -/
theorem getFwlPortSpeedPhysical_eq_max_grouped_ungrouped
    (network_components : List FrontendComponent)
    (hg : network_components.filterMap (fun i => i.networkComponentGroup) ≠ []) :
    getFwlPortSpeedPhysical network_components
      = some (Nat.max (maxGroupedSum network_components)
          (maxUngroupedSpeed network_components)) := by
  simp only [getFwlPortSpeedPhysical, maxGroupedSum, maxUngroupedSpeed]
  have hne : (network_components.filterMap (fun i => i.networkComponentGroup)).map
      (fun group => group.foldl (fun group_speed c => group_speed + c.maxSpeed) 0) ≠ [] := by
    intro hnil
    exact hg (List.map_eq_nil_iff.mp hnil)
  rw [pyMaxList_of_ne_nil _ hne]
  simp only [foldl_add_maxSpeed, Nat.zero_add, List.foldl_map]

/-- Witness for C1 at the spec's example: groups `[[10, 10], [5]]` and an
ungrouped component of speed 30 yield `max(20, 30) = 30`. -/
theorem getFwlPortSpeedPhysical_eq_max_grouped_ungrouped_witness :
    getFwlPortSpeedPhysical
        [⟨10, some [⟨10⟩, ⟨10⟩]⟩, ⟨5, some [⟨5⟩]⟩, ⟨30, none⟩]
      = some (Nat.max
          (maxGroupedSum [⟨10, some [⟨10⟩, ⟨10⟩]⟩, ⟨5, some [⟨5⟩]⟩, ⟨30, none⟩])
          (maxUngroupedSpeed [⟨10, some [⟨10⟩, ⟨10⟩]⟩, ⟨5, some [⟨5⟩]⟩, ⟨30, none⟩]))
    ∧ Nat.max
          (maxGroupedSum [⟨10, some [⟨10⟩, ⟨10⟩]⟩, ⟨5, some [⟨5⟩]⟩, ⟨30, none⟩])
          (maxUngroupedSpeed [⟨10, some [⟨10⟩, ⟨10⟩]⟩, ⟨5, some [⟨5⟩]⟩, ⟨30, none⟩]) = 30 :=
  ⟨getFwlPortSpeedPhysical_eq_max_grouped_ungrouped _ (by decide), by decide⟩

/-- C2: with every frontend component ungrouped (speeds 15 and 40), the code
reaches `max(group_speeds)` on an empty list and fails (`none` models the
Python `ValueError`) instead of returning 40 as the spec requires. -/
theorem getFwlPortSpeedPhysical_all_ungrouped_fails :
    getFwlPortSpeedPhysical [⟨15, none⟩, ⟨40, none⟩] = none := by decide

/-! ### edit_dedicated_fwl_rules -/

/-- An entry of `firewallContextAccessControlLists`: only `direction` and
`id` are read. -/
structure AccessControlList where
  direction : String
  id : Nat
deriving Repr, DecidableEq

/-- A firewall interface of the firewall's VLAN, fetched with mask
`networkVlan[firewallInterfaces[firewallContextAccessControlLists]]`. -/
structure FirewallInterface where
  name : String
  firewallContextAccessControlLists : List AccessControlList
deriving Repr, DecidableEq

/-- The template submitted to `Network_Firewall_Update_Request.createObject`. -/
structure UpdateRequestTemplate (R : Type) where
  firewallContextAccessControlListId : Nat
  rules : R
deriving Repr, DecidableEq

/-- The nested loop of `edit_dedicated_fwl_rules`: the final value of the
local variable `fwl_ctx_acl_id` (`none` = never assigned, i.e. unbound). -/
def scanFwlCtxAclId (interfaces : List FirewallInterface) : Option Nat :=
  interfaces.foldl
    (fun acc fwl1 =>
      if fwl1.name == "inside" then acc
      else fwl1.firewallContextAccessControlLists.foldl
        (fun acc2 control_list =>
          if control_list.direction == "out" then acc2 else some control_list.id)
        acc)
    none

/-- Embedding of `FirewallManager.edit_dedicated_fwl_rules` as a function of the fetched
firewall interfaces.  The result is the template handed to
`Network_Firewall_Update_Request.createObject`; `none` models the
`UnboundLocalError` raised while building the template, before any remote
`createObject` call. -/
def editDedicatedFwlRules {R : Type} (interfaces : List FirewallInterface) (rules : R) :
    Option (UpdateRequestTemplate R) :=
  match scanFwlCtxAclId interfaces with
  | none => none
  | some fwl_ctx_acl_id => some ⟨fwl_ctx_acl_id, rules⟩

/-- Spec-side list of qualifying access-control lists in iteration order:
those on interfaces not named "inside" whose direction is not "out". -/
def qualifyingAcls (interfaces : List FirewallInterface) : List AccessControlList :=
  (interfaces.filter (fun fwl1 => !(fwl1.name == "inside"))).flatMap
    (fun fwl1 => fwl1.firewallContextAccessControlLists.filter
      (fun control_list => !(control_list.direction == "out")))

theorem getLast?_or_cons {α : Type} (x : α) (l : List α) (acc : Option α) :
    ((x :: l).getLast?).or acc = (l.getLast?).or (some x) := by
  cases l with
  | nil => simp
  | cons y ys =>
    rw [List.getLast?_cons_cons]
    cases hys : (y :: ys).getLast? with
    | none => exact absurd (List.getLast?_eq_none_iff.mp hys) (by simp)
    | some z => simp [Option.or_some]

theorem inner_acl_foldl_eq (acls : List AccessControlList) (acc : Option Nat) :
    acls.foldl
        (fun acc2 control_list =>
          if control_list.direction == "out" then acc2 else some control_list.id)
        acc
      = (((acls.filter (fun cl => !(cl.direction == "out"))).map
          (fun cl => cl.id)).getLast?).or acc := by
  induction acls generalizing acc with
  | nil => simp
  | cons cl acls ih =>
    rw [List.foldl_cons, List.filter_cons]
    by_cases h : cl.direction == "out"
    · rw [if_pos h, if_neg (by rw [h]; decide), ih]
    · have hb : (!(cl.direction == "out")) = true := by
        rw [Bool.not_eq_true] at h
        rw [h]
        decide
      rw [if_neg h, if_pos hb, ih, List.map_cons, getLast?_or_cons]

theorem scanFwlCtxAclId_foldl_eq (interfaces : List FirewallInterface) (acc : Option Nat) :
    interfaces.foldl
        (fun acc fwl1 =>
          if fwl1.name == "inside" then acc
          else fwl1.firewallContextAccessControlLists.foldl
            (fun acc2 control_list =>
              if control_list.direction == "out" then acc2 else some control_list.id)
            acc)
        acc
      = (((qualifyingAcls interfaces).map (fun cl => cl.id)).getLast?).or acc := by
  induction interfaces generalizing acc with
  | nil => simp [qualifyingAcls]
  | cons fwl1 rest ih =>
    rw [List.foldl_cons]
    unfold qualifyingAcls
    rw [List.filter_cons]
    by_cases h : fwl1.name == "inside"
    · rw [if_pos h, if_neg (by rw [h]; decide)]
      exact ih acc
    · have hb : (!(fwl1.name == "inside")) = true := by
        rw [Bool.not_eq_true] at h
        rw [h]
        decide
      rw [if_neg h, inner_acl_foldl_eq, ih, if_pos hb, List.flatMap_cons,
        List.map_append, List.getLast?_append, Option.or_assoc]
      rfl

theorem scanFwlCtxAclId_eq_getLast (interfaces : List FirewallInterface) :
    scanFwlCtxAclId interfaces
      = ((qualifyingAcls interfaces).map (fun cl => cl.id)).getLast? := by
  unfold scanFwlCtxAclId
  rw [scanFwlCtxAclId_foldl_eq, Option.or_none]

theorem getLast?_map {α β : Type} (f : α → β) (l : List α) :
    (l.map f).getLast? = Option.map f l.getLast? := by
  rw [← List.head?_reverse, ← List.map_reverse, List.head?_map, List.head?_reverse]

/-- C3: when the qualifying access-control lists are nonempty,
`edit_dedicated_fwl_rules` submits a template whose
`firewallContextAccessControlListId` is the id of the LAST qualifying
access-control list in iteration order, paired with the given rules. -/
theorem editDedicatedFwlRules_last_match {R : Type} (interfaces : List FirewallInterface)
    (rules : R) (control_list : AccessControlList)
    (hlast : (qualifyingAcls interfaces).getLast? = some control_list) :
    editDedicatedFwlRules interfaces rules = some ⟨control_list.id, rules⟩ := by
  unfold editDedicatedFwlRules
  rw [scanFwlCtxAclId_eq_getLast, getLast?_map, hlast]
  rfl

/-- Witness for C3: two non-"inside" interfaces carry qualifying lists with
ids 2, 4 and 5 (in iteration order); the template targets the last, id 5. -/
theorem editDedicatedFwlRules_last_match_witness :
    (qualifyingAcls
        [FirewallInterface.mk "inside" [AccessControlList.mk "in" 1],
         FirewallInterface.mk "outside"
           [AccessControlList.mk "in" 2, AccessControlList.mk "out" 3,
            AccessControlList.mk "in" 4],
         FirewallInterface.mk "dmz" [AccessControlList.mk "in" 5]]).getLast?
      = some (AccessControlList.mk "in" 5)
    ∧ editDedicatedFwlRules
        [FirewallInterface.mk "inside" [AccessControlList.mk "in" 1],
         FirewallInterface.mk "outside"
           [AccessControlList.mk "in" 2, AccessControlList.mk "out" 3,
            AccessControlList.mk "in" 4],
         FirewallInterface.mk "dmz" [AccessControlList.mk "in" 5]] (0 : Nat)
      = some (UpdateRequestTemplate.mk 5 0) :=
  ⟨by decide,
   editDedicatedFwlRules_last_match _ 0 (AccessControlList.mk "in" 5) (by decide)⟩

/-- C10: when no access-control list qualifies (every interface is named
"inside", or all its lists have direction "out"), the local variable is
never bound, the function fails, and no template reaches `createObject`. -/
theorem editDedicatedFwlRules_no_qualifying {R : Type} (interfaces : List FirewallInterface)
    (rules : R)
    (h : ∀ fwl1 ∈ interfaces, fwl1.name = "inside" ∨
      ∀ control_list ∈ fwl1.firewallContextAccessControlLists,
        control_list.direction = "out") :
    editDedicatedFwlRules interfaces rules = none := by
  have hq : qualifyingAcls interfaces = [] := by
    rw [qualifyingAcls, List.flatMap_eq_nil_iff]
    intro fwl1 hmem
    rw [List.mem_filter] at hmem
    rcases h fwl1 hmem.1 with hname | hdir
    · have hfalse : (!(fwl1.name == "inside")) = true := hmem.2
      rw [hname] at hfalse
      exact absurd hfalse (by decide)
    · rw [List.filter_eq_nil_iff]
      intro cl hcl
      rw [hdir cl hcl]
      decide
  unfold editDedicatedFwlRules
  rw [scanFwlCtxAclId_eq_getLast, hq]
  rfl

/-- Witness for C10: one "inside" interface and one interface whose only
list has direction "out"; no update request is produced. -/
theorem editDedicatedFwlRules_no_qualifying_witness :
    editDedicatedFwlRules
        [FirewallInterface.mk "inside" [AccessControlList.mk "in" 5],
         FirewallInterface.mk "outside" [AccessControlList.mk "out" 9]] (0 : Nat)
      = none :=
  editDedicatedFwlRules_no_qualifying _ 0 (by decide)

/-! ### cancel_firewall and billing-item resolution -/

/-- A billing item fetched under `billingItem[id]`. -/
structure BillingItem where
  id : Nat
deriving Repr, DecidableEq

/-- The firewall object fetched with mask `mask[id,billingItem[id]]`; the
`billingItem` key may be absent. -/
structure FirewallRecord where
  id : Nat
  billingItem : Option BillingItem
deriving Repr, DecidableEq

/-- The two distinct `SoftLayerError` failures of `_get_fwl_billing_item`
("Unable to find firewall %d" and "Unable to find billing item for
firewall %d"). -/
inductive FwlError where
  | firewallNotFound (firewall_id : Nat)
  | billingItemNotFound (firewall_id : Nat)
deriving Repr, DecidableEq

/-- Embedding of `FirewallManager._get_fwl_billing_item` as a function of the object the
remote `getObject` returned (`none` = absent firewall). -/
def getFwlBillingItem (firewall_id : Nat) (firewall : Option FirewallRecord) :
    Except FwlError BillingItem :=
  match firewall with
  | none => .error (.firewallNotFound firewall_id)
  | some fwl =>
    match fwl.billingItem with
    | none => .error (.billingItemNotFound firewall_id)
    | some fwl_billing => .ok fwl_billing

/-- The remote call `Billing_Item.cancelService(id=...)`. -/
structure CancelServiceCall where
  id : Nat
deriving Repr, DecidableEq

/-- Embedding of `FirewallManager.cancel_firewall`: resolves the billing item, then calls
`cancelService` with its id; the `ok` payload is the remote call made. -/
def cancelFirewall (firewall_id : Nat) (firewall : Option FirewallRecord) :
    Except FwlError CancelServiceCall :=
  match getFwlBillingItem firewall_id firewall with
  | .error e => .error e
  | .ok fwl_billing => .ok ⟨fwl_billing.id⟩

/-- C4: an absent firewall gives the "firewall not found" error, a firewall
without billing item gives the distinct "billing item not found" error, and
cancellation calls `cancelService` with the billing item id only when both
checks pass. -/
theorem cancelFirewall_error_taxonomy (firewall_id : Nat)
    (firewall : Option FirewallRecord) :
    (firewall = none →
      cancelFirewall firewall_id firewall
        = .error (.firewallNotFound firewall_id)) ∧
    (∀ fwl, firewall = some fwl → fwl.billingItem = none →
      cancelFirewall firewall_id firewall
        = .error (.billingItemNotFound firewall_id)) ∧
    (∀ fwl fwl_billing, firewall = some fwl → fwl.billingItem = some fwl_billing →
      cancelFirewall firewall_id firewall = .ok ⟨fwl_billing.id⟩) ∧
    FwlError.firewallNotFound firewall_id ≠ FwlError.billingItemNotFound firewall_id := by
  refine ⟨?_, ?_, ?_, fun hc => FwlError.noConfusion hc⟩
  · intro h
    subst h
    rfl
  · intro fwl h hb
    subst h
    simp [cancelFirewall, getFwlBillingItem, hb]
  · intro fwl fwl_billing h hb
    subst h
    simp [cancelFirewall, getFwlBillingItem, hb]

/-- Witness for C4 at concrete inputs: ids 7 (absent), 8 (present, unbilled)
and 9 (billed with billing item 42). -/
theorem cancelFirewall_error_taxonomy_witness :
    cancelFirewall 7 none = .error (.firewallNotFound 7)
    ∧ cancelFirewall 8 (some ⟨8, none⟩) = .error (.billingItemNotFound 8)
    ∧ cancelFirewall 9 (some ⟨9, some ⟨42⟩⟩) = .ok ⟨42⟩ :=
  ⟨(cancelFirewall_error_taxonomy 7 none).1 rfl,
   (cancelFirewall_error_taxonomy 8 (some ⟨8, none⟩)).2.1 ⟨8, none⟩ rfl rfl,
   (cancelFirewall_error_taxonomy 9 (some ⟨9, some ⟨42⟩⟩)).2.2.1 ⟨9, some ⟨42⟩⟩ ⟨42⟩ rfl rfl⟩

/-! ### add_standard_firewall -/

/-- A catalog price entry. -/
structure Price where
  id : Nat
deriving Repr, DecidableEq

/-- A catalog package entry as returned by `get_standard_package`. -/
structure Package where
  prices : List Price
deriving Repr, DecidableEq

/-- The product order handed to `Product_Order.placeOrder`.  The server is
attached under exactly one of `virtualGuests` / `hardware`; `none` models
the key being absent from the Python dict. -/
structure ProductOrder where
  complexType : String
  quantity : Nat
  packageId : Nat
  virtualGuests : Option (List Nat)
  hardware : Option (List Nat)
  prices : List Nat
deriving Repr, DecidableEq

/-- Embedding of `FirewallManager.add_standard_firewall` as a function of the package
list returned by `get_standard_package`.  `none` models the uncaught
`IndexError` from `package[0]['prices'][0]`: there is no local guard, the
failure propagates and `placeOrder` is never reached. -/
def addStandardFirewall (server_id : Nat) (is_virt : Bool) (package : List Package) :
    Option ProductOrder :=
  match package.head? with
  | none => none
  | some pkg0 =>
    match pkg0.prices.head? with
    | none => none
    | some price0 =>
      if is_virt then
        some { complexType :=
                 "SoftLayer_Container_Product_Order_Network_Protection_Firewall",
               quantity := 1, packageId := 0,
               virtualGuests := some [server_id], hardware := none,
               prices := [price0.id] }
      else
        some { complexType :=
                 "SoftLayer_Container_Product_Order_Network_Protection_Firewall",
               quantity := 1, packageId := 0,
               virtualGuests := none, hardware := some [server_id],
               prices := [price0.id] }

/-- C5: the order carries the fixed complex type, attaches the server under
`virtualGuests` when `is_virt` and under `hardware` otherwise, and uses the
first package's first price id; an empty package list makes the call fail
with no local guard. -/
theorem addStandardFirewall_spec (server_id : Nat) (is_virt : Bool)
    (package : List Package) :
    (package = [] → addStandardFirewall server_id is_virt package = none) ∧
    (∀ pkg0 rest price0 prest, package = pkg0 :: rest →
      pkg0.prices = price0 :: prest →
      addStandardFirewall server_id is_virt package
        = some { complexType :=
                   "SoftLayer_Container_Product_Order_Network_Protection_Firewall",
                 quantity := 1, packageId := 0,
                 virtualGuests := if is_virt then some [server_id] else none,
                 hardware := if is_virt then none else some [server_id],
                 prices := [price0.id] }) := by
  constructor
  · intro h
    subst h
    rfl
  · intro pkg0 rest price0 prest hp hpr
    subst hp
    cases is_virt <;> simp [addStandardFirewall, hpr]

/-- Witness for C5: empty package list fails; a one-package catalog with
price id 99 orders under `virtualGuests` for a virtual server and under
`hardware` for a hardware server. -/
theorem addStandardFirewall_spec_witness :
    addStandardFirewall 11 true [] = none
    ∧ addStandardFirewall 11 true [⟨[⟨99⟩]⟩]
        = some ⟨"SoftLayer_Container_Product_Order_Network_Protection_Firewall",
                1, 0, some [11], none, [99]⟩
    ∧ addStandardFirewall 12 false [⟨[⟨99⟩]⟩]
        = some ⟨"SoftLayer_Container_Product_Order_Network_Protection_Firewall",
                1, 0, none, some [12], [99]⟩ :=
  ⟨(addStandardFirewall_spec 11 true []).1 rfl,
   (addStandardFirewall_spec 11 true [⟨[⟨99⟩]⟩]).2 ⟨[⟨99⟩]⟩ [] ⟨99⟩ [] rfl rfl,
   (addStandardFirewall_spec 12 false [⟨[⟨99⟩]⟩]).2 ⟨[⟨99⟩]⟩ [] ⟨99⟩ [] rfl rfl⟩

/-! ### has_firewall and get_firewalls -/

/-- A VLAN record as returned by `Account.getNetworkVlans`.  Each of the
five indicator keys may be absent (`none`).  The two flags are integers
(Python truthiness: nonzero); the three collections are lists (Python
truthiness: nonempty), their elements abstracted to ids. -/
structure Vlan where
  dedicatedFirewallFlag : Option Nat
  highAvailabilityFirewallFlag : Option Nat
  firewallInterfaces : Option (List Nat)
  firewallNetworkComponents : Option (List Nat)
  firewallGuestNetworkComponents : Option (List Nat)
deriving Repr, DecidableEq

/-- Python truthiness of `vlan.get(key, None)` for an integer flag. -/
def truthyFlag : Option Nat → Bool
  | none => false
  | some n => n != 0

/-- Python truthiness of `vlan.get(key, None)` for a collection. -/
def truthyList : Option (List Nat) → Bool
  | none => false
  | some l => !l.isEmpty

/-- The module-level helper `has_firewall`: `bool(a or b or c or d or e)`
over the five indicator fields. -/
def has_firewall (vlan : Vlan) : Bool :=
  truthyFlag vlan.dedicatedFirewallFlag ||
  truthyFlag vlan.highAvailabilityFirewallFlag ||
  truthyList vlan.firewallInterfaces ||
  truthyList vlan.firewallNetworkComponents ||
  truthyList vlan.firewallGuestNetworkComponents

theorem truthyFlag_iff (o : Option Nat) :
    truthyFlag o = true ↔ ∃ n, o = some n ∧ n ≠ 0 := by
  cases o <;> simp [truthyFlag]

theorem truthyList_iff (o : Option (List Nat)) :
    truthyList o = true ↔ ∃ l, o = some l ∧ l ≠ [] := by
  cases o <;> simp [truthyList]

/-- C6: `has_firewall` is true iff at least one of the five indicator fields
is present and truthy, and is false (without failing) when all five are
absent. -/
theorem has_firewall_iff (vlan : Vlan) :
    (has_firewall vlan = true ↔
      ((∃ n, vlan.dedicatedFirewallFlag = some n ∧ n ≠ 0) ∨
       (∃ n, vlan.highAvailabilityFirewallFlag = some n ∧ n ≠ 0) ∨
       (∃ l, vlan.firewallInterfaces = some l ∧ l ≠ []) ∨
       (∃ l, vlan.firewallNetworkComponents = some l ∧ l ≠ []) ∨
       (∃ l, vlan.firewallGuestNetworkComponents = some l ∧ l ≠ [])))
    ∧ has_firewall ⟨none, none, none, none, none⟩ = false := by
  refine ⟨?_, rfl⟩
  simp only [has_firewall, Bool.or_eq_true, truthyFlag_iff, truthyList_iff, or_assoc]

/-- Embedding of `FirewallManager.get_firewalls` as a function of the VLAN list the
remote `getNetworkVlans` call returned: the list comprehension keeps, in
order, the VLANs passing `has_firewall`. -/
def get_firewalls : List Vlan → List Vlan
  | [] => []
  | vlan :: rest =>
    if has_firewall vlan then vlan :: get_firewalls rest else get_firewalls rest

/-- C7: `get_firewalls` returns exactly the sublist of VLANs with a
firewall, preserving the remote response order (no local sort, no other
filtering). -/
theorem get_firewalls_filter (vlans : List Vlan) :
    (get_firewalls vlans).Sublist vlans
    ∧ get_firewalls vlans = vlans.filter (fun vlan => has_firewall vlan) := by
  have hf : get_firewalls vlans = vlans.filter (fun vlan => has_firewall vlan) := by
    induction vlans with
    | nil => rfl
    | cons vlan rest ih =>
      by_cases h : has_firewall vlan <;>
        simp [get_firewalls, h, List.filter_cons, ih]
  exact ⟨hf ▸ List.filter_sublist vlans, hf⟩

/-! ### get_instance -/

/-- The default deep mask of `get_instance` (Python adjacent string
literals concatenate). -/
def DEFAULT_GET_INSTANCE_MASK : String :=
  "mask[firewallType,datacenter,managementCredentials,networkVlan," ++
  "metricTrackingObject[data,type],networkGateway[insideVlans,members,privateIpAddress," ++
  "publicIpAddress,publicIpv6Address,privateVlan,publicVlan,status]]"

/-- The remote call `Network_Vlan_Firewall.getObject(id=..., mask=...)`. -/
structure GetObjectCall where
  id : Nat
  mask : String
deriving Repr, DecidableEq

/-- Embedding of `FirewallManager.get_instance`: Python `if not mask:` replaces a missing
(`None`) or empty caller mask by the default before the remote call. -/
def get_instance (firewall_id : Nat) (mask : Option String) : GetObjectCall :=
  match mask with
  | none => ⟨firewall_id, DEFAULT_GET_INSTANCE_MASK⟩
  | some m => ⟨firewall_id, if m.isEmpty then DEFAULT_GET_INSTANCE_MASK else m⟩

/-- Counterexample to C8: a caller-supplied empty mask is NOT used verbatim;
the default deep mask is substituted. -/
theorem get_instance_empty_mask_counterexample :
    (get_instance 1 (some "")).mask = DEFAULT_GET_INSTANCE_MASK
    ∧ (get_instance 1 (some "")).mask ≠ "" :=
  ⟨rfl, by decide⟩

/-- C8 amended: a missing mask and an empty (Python-falsy) mask both get the
built-in default deep mask; any non-empty caller mask is used verbatim as a
full override. -/
theorem get_instance_mask_spec (firewall_id : Nat) (mask : Option String) :
    (mask = none →
      get_instance firewall_id mask = ⟨firewall_id, DEFAULT_GET_INSTANCE_MASK⟩) ∧
    (∀ m, mask = some m → m ≠ "" →
      get_instance firewall_id mask = ⟨firewall_id, m⟩) ∧
    (mask = some "" →
      get_instance firewall_id mask = ⟨firewall_id, DEFAULT_GET_INSTANCE_MASK⟩) := by
  refine ⟨?_, ?_, ?_⟩
  · intro h
    subst h
    rfl
  · intro m h hm
    subst h
    have : m.isEmpty = false := by
      rw [← Bool.not_eq_true, String.isEmpty_iff]
      exact hm
    simp [get_instance, this]
  · intro h
    subst h
    rfl

/-- Witness for C8 (amended) at concrete inputs: no mask, the mask
`"mask[id]"`, and the empty mask. -/
theorem get_instance_mask_spec_witness :
    get_instance 3 none = ⟨3, DEFAULT_GET_INSTANCE_MASK⟩
    ∧ get_instance 4 (some "mask[id]") = ⟨4, "mask[id]"⟩
    ∧ get_instance 5 (some "") = ⟨5, DEFAULT_GET_INSTANCE_MASK⟩ :=
  ⟨(get_instance_mask_spec 3 none).1 rfl,
   (get_instance_mask_spec 4 (some "mask[id]")).2.1 "mask[id]" rfl (by decide),
   (get_instance_mask_spec 5 (some "")).2.2 rfl⟩

/-! ### get_summary -/

/-- One entry of the metric-summary request body. -/
structure MetricType where
  keyName : String
  summaryType : String
deriving Repr, DecidableEq

/-- The remote call
`Metric_Tracking_Object.getSummaryData(start, end, types, period, id=...)`. -/
structure GetSummaryDataCall where
  start_date : String
  end_date : String
  validTypes : List MetricType
  period : Nat
  id : Nat
deriving Repr, DecidableEq

/-- Embedding of `FirewallManager.get_summary` as the remote call it issues. -/
def get_summary (identifier : Nat) (start_date end_date : String) :
    GetSummaryDataCall :=
  ⟨start_date, end_date,
   [⟨"PUBLICIN", "sum"⟩, ⟨"PUBLICOUT", "sum"⟩], 86400, identifier⟩

/-- C9: `get_summary` requests summed PUBLICIN and PUBLICOUT metrics over
the given date range at a granularity of exactly 86400 seconds, for every
identifier and every pair of dates. -/
theorem get_summary_fixed_granularity (identifier : Nat)
    (start_date end_date : String) :
    (get_summary identifier start_date end_date).period = 86400
    ∧ (get_summary identifier start_date end_date).validTypes
        = [⟨"PUBLICIN", "sum"⟩, ⟨"PUBLICOUT", "sum"⟩]
    ∧ (get_summary identifier start_date end_date).start_date = start_date
    ∧ (get_summary identifier start_date end_date).end_date = end_date
    ∧ (get_summary identifier start_date end_date).id = identifier :=
  ⟨rfl, rfl, rfl, rfl, rfl⟩

end Firewall
